import Mathlib

/-!
# ProteinCheckerWeb — verification of the core calculation and history logic

Shallow embedding of the repository's core modules:

* `calculateDigestibleProtein` and friends (src/utils/proteinCalculations.ts)
* `getDefaultPercentages` / `getQualityBasedPercentages` (default allocation advisor)
* `DataManager` history operations (src/utils/dataManager.ts)

Numbers are modelled as exact rationals (`ℚ`); JavaScript values that can be
`undefined` are modelled with `Option`.  A JavaScript function that can throw a
`TypeError` (dereferencing `undefined`) is modelled as returning `Option`/pair
with `none` on the throwing path.  Timestamps (`Date`) are modelled by their
epoch-millisecond value (an `ℤ`), which is exactly what the ISO-8601 string in
the persisted JSON encodes.
-/

namespace ProteinChecker

/-- `ProteinCategory` enum from src/types/protein.ts (the `ALL` value is a
filter-only pseudo-category but is part of the enum). -/
inductive ProteinCategory
  | ALL
  | MEAT
  | DAIRY
  | PLANT
  | SUPPLEMENT
  | OTHER
  deriving DecidableEq, Repr

/-- `AminoAcidProfile` from src/types/protein.ts. -/
structure AminoAcidProfile where
  histidine : ℚ
  isoleucine : ℚ
  leucine : ℚ
  lysine : ℚ
  methionine : ℚ
  phenylalanine : ℚ
  threonine : ℚ
  tryptophan : ℚ
  valine : ℚ
  deriving DecidableEq, Repr

/-- `ProteinSource` from src/types/protein.ts. -/
structure ProteinSource where
  id : String
  name : String
  category : ProteinCategory
  diaasScore : Option ℚ := none
  pdcaasScore : Option ℚ := none
  aminoAcidProfile : Option AminoAcidProfile := none
  description : Option String := none
  deriving DecidableEq, Repr

/-- `ProteinSourceWithPercentage` from src/types/protein.ts. -/
structure ProteinSourceWithPercentage where
  source : ProteinSource
  percentage : Option ℚ := none
  deriving DecidableEq, Repr

/-- `CalculationMethod` enum from src/types/protein.ts. -/
inductive CalculationMethod
  | DIAAS
  | PDCAAS
  deriving DecidableEq, Repr

/-- `CalculationInput` from src/types/protein.ts: both the legacy single
`proteinSource` and the multi-source `proteinSources` field are optional. -/
structure CalculationInput where
  statedProtein : ℚ
  dvPercentage : Option ℚ := none
  proteinSource : Option ProteinSource := none
  proteinSources : Option (List ProteinSourceWithPercentage) := none
  deriving DecidableEq, Repr

/-- `CalculationResult` from src/types/protein.ts. -/
structure CalculationResult where
  qualityAdjustedProtein : ℚ
  proteinQualityPercentage : ℚ
  calculationMethod : CalculationMethod
  adjustedProtein : Option ℚ
  scoreUsed : ℚ
  dvDiscrepancy : Option ℚ
  deriving DecidableEq, Repr

/-- `FDA_DAILY_VALUE_PROTEIN` constant from src/utils/proteinCalculations.ts. -/
def FDA_DAILY_VALUE_PROTEIN : ℚ := 50

/-- `calculateDigestibleProtein` from src/utils/proteinCalculations.ts.

The source destructures `const { statedProtein, dvPercentage, proteinSource }
= input` and later reads `proteinSource.diaasScore`; when `proteinSource` is
`undefined` (a multi-source input populating only `proteinSources`) that line
throws a `TypeError`, modelled here by the `none` result.  The guard
`dvPercentage && dvPercentage > 0` combines JavaScript truthiness
(`dv ≠ 0`) with a sign test, and the returned `adjustedProtein` field uses
only the truthiness test (`dvPercentage ? adjustedProtein : undefined`). -/
def calculateDigestibleProtein (input : CalculationInput) :
    Option CalculationResult :=
  let statedProtein := input.statedProtein
  let adjustedProtein : ℚ :=
    match input.dvPercentage with
    | some dv =>
        if dv ≠ 0 ∧ 0 < dv then dv / 100 * FDA_DAILY_VALUE_PROTEIN
        else statedProtein
    | none => statedProtein
  let dvDiscrepancy : Option ℚ :=
    match input.dvPercentage with
    | some dv =>
        if dv ≠ 0 ∧ 0 < dv then
          let discrepancy := |dv / 100 * FDA_DAILY_VALUE_PROTEIN - statedProtein|
          if 1/2 < discrepancy then some discrepancy else none
        else none
    | none => none
  match input.proteinSource with
  | none => none
  | some proteinSource =>
      let scoreMethod : ℚ × CalculationMethod :=
        match proteinSource.diaasScore with
        | some d => (d, CalculationMethod.DIAAS)
        | none =>
            match proteinSource.pdcaasScore with
            | some p => (p, CalculationMethod.PDCAAS)
            | none => (3/4, CalculationMethod.DIAAS)
      let qualityAdjustedProtein := adjustedProtein * scoreMethod.1
      some
        { qualityAdjustedProtein := qualityAdjustedProtein
          proteinQualityPercentage := qualityAdjustedProtein / statedProtein * 100
          calculationMethod := scoreMethod.2
          adjustedProtein :=
            match input.dvPercentage with
            | some dv => if dv ≠ 0 then some adjustedProtein else none
            | none => none
          scoreUsed := scoreMethod.1
          dvDiscrepancy := dvDiscrepancy }

/-- `createCalculationRecord` builds a `ProteinCalculation` history entry
(src/utils/proteinCalculations.ts); the persisted record type is
`ProteinCalculation` from src/types/protein.ts.  `timestamp` is the `Date`
creation time as epoch milliseconds. -/
structure ProteinCalculation where
  id : String
  statedProtein : ℚ
  dvPercentage : Option ℚ := none
  proteinSource : Option ProteinSource := none
  proteinSources : Option (List ProteinSourceWithPercentage) := none
  digestibleProtein : ℚ
  digestibilityPercentage : ℚ
  calculationMethod : CalculationMethod
  timestamp : ℤ
  deriving DecidableEq, Repr

/-- `ProteinCombination` interface from the default-percentages module. -/
structure ProteinCombination where
  sources : List String
  percentages : List ℚ
  description : String
  deriving DecidableEq, Repr

/-- The static `commonCombinations` table from the default-percentages
module, in source order (the order is the matching priority). -/
def commonCombinations : List ProteinCombination :=
  [ { sources := ["chicken", "quinoa"], percentages := [70, 30],
      description := "Chicken and quinoa bowl" },
    { sources := ["beef", "lentils"], percentages := [60, 40],
      description := "Beef and lentil stew" },
    { sources := ["fish", "rice"], percentages := [80, 20],
      description := "Fish with rice" },
    { sources := ["milk", "oats"], percentages := [60, 40],
      description := "Oatmeal with milk" },
    { sources := ["yogurt", "nuts"], percentages := [75, 25],
      description := "Yogurt with nuts" },
    { sources := ["cheese", "bread"], percentages := [70, 30],
      description := "Cheese sandwich" },
    { sources := ["beans", "rice"], percentages := [60, 40],
      description := "Rice and beans (complete protein)" },
    { sources := ["lentils", "quinoa"], percentages := [50, 50],
      description := "Lentil quinoa salad" },
    { sources := ["peanuts", "bread"], percentages := [40, 60],
      description := "Peanut butter sandwich" },
    { sources := ["chickpeas", "tahini"], percentages := [80, 20],
      description := "Hummus" },
    { sources := ["whey", "casein"], percentages := [70, 30],
      description := "Whey and casein blend" },
    { sources := ["pea protein", "rice protein"], percentages := [70, 30],
      description := "Plant protein blend" },
    { sources := ["egg", "bread"], percentages := [60, 40],
      description := "Egg sandwich" },
    { sources := ["milk", "cereal"], percentages := [50, 50],
      description := "Cereal with milk" } ]

/-- Character-list substring test backing `String.includes`. -/
def charsContains (pat : List Char) : List Char → Bool
  | [] => pat.isEmpty
  | c :: rest => pat.isPrefixOf (c :: rest) || charsContains pat rest

/-- `toLowerCase()` on a string's characters (ASCII-complete, as is every
string in the combinations table and catalog). -/
def toLowerChars (s : String) : List Char :=
  s.data.map Char.toLower

/-- JavaScript `haystack.toLowerCase().includes(needle.toLowerCase())`. -/
def includesLower (haystack needle : String) : Bool :=
  charsContains (toLowerChars needle) (toLowerChars haystack)

/-- JavaScript `Math.round`: rounds half toward positive infinity. -/
def jsRound (x : ℚ) : ℤ := ⌊x + 1/2⌋

/-- `Math.max(...list)` over a nonempty list (the only use site guards
against the empty list upstream); on `[]` we return 0 in place of
JavaScript's `-Infinity`. -/
def listMax : List ℚ → ℚ
  | [] => 0
  | x :: xs => xs.foldl max x

/-- `getQualityBasedPercentages` from the default-percentages module:
weight each source by `max(diaasScore ?? pdcaasScore ?? 0.5, 0.1)`, normalise
to percentages, round to one decimal, and add the residual to the largest
entry only when the rounded sum drifts from 100 by strictly more than
0.1. -/
def getQualityBasedPercentages (sources : List ProteinSource) : List ℚ :=
  let weights := sources.map fun source =>
    let score : ℚ :=
      match source.diaasScore with
      | some d => d
      | none =>
          match source.pdcaasScore with
          | some p => p
          | none => 1/2
    max score (1/10)
  let totalWeight := weights.sum
  let percentages := weights.map fun weight => weight / totalWeight * 100
  let roundedPercentages := percentages.map fun p => (jsRound (p * 10) : ℚ) / 10
  let s := roundedPercentages.sum
  if 1/10 < |s - 100| then
    let maxIndex := roundedPercentages.indexOf (listMax roundedPercentages)
    roundedPercentages.set maxIndex
      (roundedPercentages.getD maxIndex 0 + (100 - s))
  else
    roundedPercentages

/-- The per-combination test inside `getDefaultPercentages`'s loop: the
combination's source count must equal the input count and every pattern must
occur (case-insensitively) in some input source name. -/
def matchesCombination (sources : List ProteinSource)
    (combination : ProteinCombination) : Bool :=
  combination.sources.length == sources.length &&
  combination.sources.all fun pat =>
    sources.any fun source => includesLower source.name pat

/-- `getDefaultPercentages` from the default-percentages module: empty and
singleton special cases, then the first matching common combination, then
the two-source plant/animal 70-30 heuristic, then the quality-weighted
fallback. -/
def getDefaultPercentages (sources : List ProteinSource) : List ℚ :=
  if sources.length = 0 then []
  else if sources.length = 1 then [100]
  else
    match commonCombinations.find? (matchesCombination sources) with
    | some combination => combination.percentages
    | none =>
        let hasPlantAndAnimal :=
          (sources.any fun s => s.category == ProteinCategory.PLANT) &&
          (sources.any fun s =>
            s.category == ProteinCategory.MEAT ||
            s.category == ProteinCategory.DAIRY)
        if hasPlantAndAnimal && sources.length == 2 then
          let animalIndex := sources.findIdx fun s =>
            s.category == ProteinCategory.MEAT ||
            s.category == ProteinCategory.DAIRY ||
            s.category == ProteinCategory.SUPPLEMENT
          if animalIndex = 0 then [70, 30] else [30, 70]
        else
          getQualityBasedPercentages sources

/-! ## DataManager (src/utils/dataManager.ts)

The persisted store is the JSON array under the `protein_calculation_history`
key; `getCalculationHistory` materialises it with `timestamp` revived via
`new Date(...)`, which the embedding represents directly as the list of
`ProteinCalculation` records.  The exported/imported JSON text is modelled by
its parse outcome (`ImportData`): a well-formed array of records, a JSON value
that is not an array, or text on which `JSON.parse` throws. -/

/-- `maxHistoryItems` from DataManager. -/
def maxHistoryItems : ℕ := 100

/-- `saveCalculation`: `unshift` the new record, then `splice(100)` when the
length exceeds the cap, and persist. -/
def saveCalculation (calculation : ProteinCalculation)
    (history : List ProteinCalculation) : List ProteinCalculation :=
  let history' := calculation :: history
  if maxHistoryItems < history'.length then history'.take maxHistoryItems
  else history'

/-- Iterated `saveCalculation`, oldest call first. -/
def saveAll (calculations : List ProteinCalculation)
    (history : List ProteinCalculation) : List ProteinCalculation :=
  calculations.foldl (fun h c => saveCalculation c h) history

/-- `deleteCalculation`: filter out the record with the given id. -/
def deleteCalculation (id : String)
    (history : List ProteinCalculation) : List ProteinCalculation :=
  history.filter fun c => c.id ≠ id

/-- `clearCalculationHistory`: `localStorage.removeItem`, after which
`getCalculationHistory` reads back the empty list. -/
def clearCalculationHistory : List ProteinCalculation := []

/-- Parse outcome of an import blob: `JSON.parse` succeeding with an array of
records, succeeding with a non-array value, or throwing. -/
inductive ImportData
  | arr (items : List ProteinCalculation)
  | nonArray
  | parseError
  deriving DecidableEq, Repr

/-- `exportCalculationHistory`: `JSON.stringify(history, null, 2)`, a JSON
array that parses back to the same records (`Date` serialises to an ISO-8601
string carrying the exact millisecond value). -/
def exportCalculationHistory (history : List ProteinCalculation) : ImportData :=
  ImportData.arr history

/-- JavaScript's stable `Array.prototype.sort` with comparator
`(a, b) => b.timestamp.getTime() - a.timestamp.getTime()` (newest first). -/
def sortByTimestampDesc (l : List ProteinCalculation) : List ProteinCalculation :=
  l.mergeSort fun a b => b.timestamp ≤ a.timestamp

/-- `importCalculationHistory(jsonData, replaceExisting)`: returns the
success flag and the resulting persisted history.  A parse failure or a
non-array payload is caught (`throw new Error('Invalid data format')`) and
yields `false` with the store untouched.  Timestamps are revived with
`new Date(calc.timestamp)` (the identity on the millisecond value).  Replace
mode persists the processed list verbatim; merge mode drops records whose id
already exists, re-sorts newest-first and re-applies the cap. -/
def importCalculationHistory (jsonData : ImportData) (replaceExisting : Bool)
    (history : List ProteinCalculation) : Bool × List ProteinCalculation :=
  match jsonData with
  | ImportData.parseError => (false, history)
  | ImportData.nonArray => (false, history)
  | ImportData.arr importedHistory =>
      let processedHistory := importedHistory.map fun c =>
        { c with timestamp := c.timestamp }
      if replaceExisting then
        (true, processedHistory)
      else
        let existingIds := history.map (·.id)
        let newCalculations := processedHistory.filter fun c =>
          ¬ existingIds.contains c.id
        let mergedHistory := history ++ newCalculations
        let sorted := sortByTimestampDesc mergedHistory
        let final :=
          if maxHistoryItems < sorted.length then sorted.take maxHistoryItems
          else sorted
        (true, final)

/-- `CalculationStatistics` from src/types/protein.ts. -/
structure CalculationStatistics where
  totalCalculations : ℕ
  averageStatedProtein : ℚ
  averageQualityAdjustedProtein : ℚ
  mostUsedSources : List (String × ℕ)
  deriving DecidableEq, Repr

/-- One step of the `sourceCount` Map accumulation:
`sourceCount.set(name, (sourceCount.get(name) || 0) + 1)` keeping JavaScript
`Map` insertion order. -/
def bumpCount (acc : List (String × ℕ)) (name : String) : List (String × ℕ) :=
  if acc.any fun e => e.1 == name then
    acc.map fun e => if e.1 == name then (e.1, e.2 + 1) else e
  else
    acc ++ [(name, 1)]

/-- `getCalculationStatistics`: averages guarded against the empty history,
then a per-source usage count grouped by `calc.proteinSource.name`.  The
`proteinSource` field is optional on `ProteinCalculation`; when any record
lacks it the `forEach` body throws a `TypeError` (modelled by `none`). -/
def getCalculationStatistics (history : List ProteinCalculation) :
    Option CalculationStatistics :=
  let totalCalculations := history.length
  let averageProtein : ℚ :=
    if totalCalculations = 0 then 0
    else (history.map (·.statedProtein)).sum / totalCalculations
  let averageQualityAdjusted : ℚ :=
    if totalCalculations = 0 then 0
    else (history.map (·.digestibleProtein)).sum / totalCalculations
  if history.all fun c => c.proteinSource.isSome then
    let names := history.filterMap fun c => c.proteinSource.map (·.name)
    let sourceCount := names.foldl bumpCount []
    let mostUsedSources :=
      (sourceCount.mergeSort fun a b => b.2 ≤ a.2).take 5
    some
      { totalCalculations := totalCalculations
        averageStatedProtein := averageProtein
        averageQualityAdjustedProtein := averageQualityAdjusted
        mostUsedSources := mostUsedSources }
  else
    none

/-! ## Concrete data for witnesses and counterexamples -/

/-- "Whey Protein Isolate" row shape from the catalog (DIAAS 1.25,
PDCAAS 1.0). -/
def wheyProteinIsolate : ProteinSource :=
  { id := "whey-protein-isolate", name := "Whey Protein Isolate",
    category := ProteinCategory.SUPPLEMENT,
    diaasScore := some (5/4), pdcaasScore := some 1 }

/-- "Soy Protein Isolate" row shape (DIAAS 0.90). -/
def soyProteinIsolate : ProteinSource :=
  { id := "soy-protein-isolate", name := "Soy Protein Isolate",
    category := ProteinCategory.PLANT, diaasScore := some (9/10) }

/-- "Tofu" row shape (DIAAS 0.87). -/
def tofu : ProteinSource :=
  { id := "tofu", name := "Tofu", category := ProteinCategory.PLANT,
    diaasScore := some (87/100) }

/-- A source carrying neither a DIAAS nor a PDCAAS score. -/
def unscoredSource : ProteinSource :=
  { id := "mushroom-medley", name := "Mushroom Medley",
    category := ProteinCategory.OTHER }

/-- A plant source whose name matches no common-combination pattern. -/
def spinach : ProteinSource :=
  { id := "spinach", name := "Spinach", category := ProteinCategory.PLANT,
    diaasScore := some 1 }

/-- A meat source whose name matches no common-combination pattern. -/
def salmon : ProteinSource :=
  { id := "salmon", name := "Salmon", category := ProteinCategory.MEAT,
    diaasScore := some 1 }

/-- A supplement source whose name matches no common-combination pattern. -/
def collagen : ProteinSource :=
  { id := "collagen", name := "Collagen",
    category := ProteinCategory.SUPPLEMENT, diaasScore := some 1 }

/-- Plant source with DIAAS 1.335, clear of the combinations table. -/
def spirulina : ProteinSource :=
  { id := "spirulina", name := "Spirulina", category := ProteinCategory.PLANT,
    diaasScore := some (267/200) }

/-- Plant source with DIAAS 0.665, clear of the combinations table. -/
def hempSeeds : ProteinSource :=
  { id := "hemp-seeds", name := "Hemp Seeds", category := ProteinCategory.PLANT,
    diaasScore := some (133/200) }

/-- A history record template indexed by `i`. -/
def mkCalc (i : ℕ) : ProteinCalculation :=
  { id := toString i, statedProtein := 25,
    proteinSource := some wheyProteinIsolate,
    digestibleProtein := 125/4, digestibilityPercentage := 125,
    calculationMethod := CalculationMethod.DIAAS, timestamp := (i : ℤ) }

/-- A history record with no `proteinSource` (reachable through import,
which never checks the field). -/
def sourcelessCalc : ProteinCalculation :=
  { id := "imported-0", statedProtein := 10, proteinSource := none,
    digestibleProtein := 15/2, digestibilityPercentage := 75,
    calculationMethod := CalculationMethod.DIAAS, timestamp := 0 }

/-! ## C1 — multi-source weighted averaging -/

/-- The two-source 50/50 input of spec scenario 3 (Soy Protein Isolate and
Tofu), supplied through `proteinSources` as `ProteinContext.calculateProtein`
builds it. -/
def multiSourceInput : CalculationInput :=
  { statedProtein := 30,
    proteinSources :=
      some [ { source := soyProteinIsolate, percentage := some 50 },
             { source := tofu, percentage := some 50 } ] }

/-- C1: the quality calculator has no multi-source path at all: on an input
whose sources arrive through `proteinSources` (with `proteinSource` absent,
exactly as the caller constructs it), `calculateDigestibleProtein`
dereferences the missing `proteinSource` and throws instead of returning the
percentage-weighted score 0.885. -/
theorem c1_multi_source_throws :
    calculateDigestibleProtein multiSourceInput = none := rfl

/-! ## C2 — totality of `calculate` on valid input -/

/-- A valid input per the claim (statedProtein > 0, one source present) that
supplies its single source through the `proteinSources` list only. -/
def listOnlyInput : CalculationInput :=
  { statedProtein := 1,
    proteinSources := some [ { source := tofu, percentage := none } ] }

/-- C2 counterexample: a valid input whose only source arrives via a
non-empty `proteinSources` list makes `calculateDigestibleProtein` throw
(model: `none`) instead of returning a `CalculationResult`. -/
theorem c2_counterexample :
    calculateDigestibleProtein listOnlyInput = none := rfl

/-- C2 (amended): `calculateDigestibleProtein` returns a result and never
throws whenever the legacy `proteinSource` field is present — the valid
inputs that carry only a `proteinSources` allocation list throw instead. -/
theorem c2_single_source_total (input : CalculationInput) (src : ProteinSource)
    (h : input.proteinSource = some src) :
    ∃ r, calculateDigestibleProtein input = some r := by
  unfold calculateDigestibleProtein
  rw [h]
  exact ⟨_, rfl⟩

/-- C2 witness: the amended theorem applied to spec scenario 1's input. -/
theorem c2_witness :
    ∃ r, calculateDigestibleProtein
      { statedProtein := 25, proteinSource := some wheyProteinIsolate } =
        some r :=
  c2_single_source_total _ wheyProteinIsolate rfl

/-! ## C3 — DV-derived base amount and quality percentage -/

/-- C3: whenever the calculator returns, the quality-adjusted protein is the
base amount times the score used, where the base amount is
`dvPercentage/100 × 50` when a DV percentage greater than 0 is supplied and
`statedProtein` otherwise (a DV percentage of exactly 0 counts as not
supplied); the quality percentage divides by the original `statedProtein`. -/
theorem c3_base_amount_and_percentage (input : CalculationInput)
    (r : CalculationResult) (h : calculateDigestibleProtein input = some r) :
    (input.dvPercentage = none →
      r.qualityAdjustedProtein = input.statedProtein * r.scoreUsed) ∧
    (input.dvPercentage = some 0 →
      r.qualityAdjustedProtein = input.statedProtein * r.scoreUsed) ∧
    (∀ dv, input.dvPercentage = some dv → 0 < dv →
      r.qualityAdjustedProtein = dv / 100 * 50 * r.scoreUsed) ∧
    r.proteinQualityPercentage =
      r.qualityAdjustedProtein / input.statedProtein * 100 := by
  unfold calculateDigestibleProtein at h
  cases hps : input.proteinSource with
  | none => rw [hps] at h; exact absurd h (by simp)
  | some src =>
    rw [hps] at h
    cases hdv : input.dvPercentage with
    | none =>
      rw [hdv] at h
      injection h with h
      subst h
      exact ⟨fun _ => rfl, fun hc => Option.noConfusion hc,
        fun dv hc => Option.noConfusion hc, rfl⟩
    | some dv =>
      rw [hdv] at h
      injection h with h
      subst h
      refine ⟨fun hc => Option.noConfusion hc,
        fun hc => ?_, fun dv' hc hpos => ?_, rfl⟩
      · have h0 : dv = 0 := Option.some.inj hc
        subst h0
        simp [FDA_DAILY_VALUE_PROTEIN]
      · have hdd : dv = dv' := Option.some.inj hc
        subst hdd
        simp [FDA_DAILY_VALUE_PROTEIN, ne_of_gt hpos, hpos]

/-- The input of spec scenario 2 (statedProtein 20, DV% 50, a DIAAS 1.25
source). -/
def c3Input : CalculationInput :=
  { statedProtein := 20, dvPercentage := some 50,
    proteinSource := some wheyProteinIsolate }

/-- The result of `calculateDigestibleProtein` on `c3Input`. -/
def c3Result : CalculationResult :=
  { qualityAdjustedProtein := 125/4, proteinQualityPercentage := 625/4,
    calculationMethod := CalculationMethod.DIAAS, adjustedProtein := some 25,
    scoreUsed := 5/4, dvDiscrepancy := some 5 }

/-- C3 witness: spec scenario 2 — base amount is `50/100 × 50 = 25` and the
quality percentage divides by the original stated 20. -/
theorem c3_witness :
    calculateDigestibleProtein c3Input = some c3Result ∧
    c3Result.qualityAdjustedProtein = 50 / 100 * 50 * c3Result.scoreUsed ∧
    c3Result.proteinQualityPercentage =
      c3Result.qualityAdjustedProtein / 20 * 100 := by
  have hr : calculateDigestibleProtein c3Input = some c3Result := by
    norm_num [calculateDigestibleProtein, c3Input, c3Result, wheyProteinIsolate,
      FDA_DAILY_VALUE_PROTEIN]
  exact ⟨hr, (c3_base_amount_and_percentage c3Input c3Result hr).2.2.1 50 rfl
      (by norm_num),
    (c3_base_amount_and_percentage c3Input c3Result hr).2.2.2⟩

/-! ## C4 — single-source DIAAS → PDCAAS → 0.75 fallback chain -/

/-- C4: for a single-source input the calculator uses `diaasScore` when
present (method DIAAS); otherwise `pdcaasScore` when present (method
PDCAAS); otherwise exactly 0.75 with method DIAAS. -/
theorem c4_fallback_chain (input : CalculationInput) (src : ProteinSource)
    (r : CalculationResult) (hs : input.proteinSource = some src)
    (h : calculateDigestibleProtein input = some r) :
    (∀ d, src.diaasScore = some d →
        r.scoreUsed = d ∧ r.calculationMethod = CalculationMethod.DIAAS) ∧
    (∀ p, src.diaasScore = none → src.pdcaasScore = some p →
        r.scoreUsed = p ∧ r.calculationMethod = CalculationMethod.PDCAAS) ∧
    (src.diaasScore = none → src.pdcaasScore = none →
        r.scoreUsed = 3/4 ∧ r.calculationMethod = CalculationMethod.DIAAS) := by
  unfold calculateDigestibleProtein at h
  rw [hs] at h
  injection h with h
  subst h
  refine ⟨fun d hd => ?_, fun p hd hp => ?_, fun hd hp => ?_⟩
  · simp [hd]
  · simp [hd, hp]
  · simp [hd, hp]

/-- The input of spec scenario 4: a source with neither score. -/
def c4Input : CalculationInput :=
  { statedProtein := 10, proteinSource := some unscoredSource }

/-- The result of `calculateDigestibleProtein` on `c4Input`. -/
def c4Result : CalculationResult :=
  { qualityAdjustedProtein := 15/2, proteinQualityPercentage := 75,
    calculationMethod := CalculationMethod.DIAAS, adjustedProtein := none,
    scoreUsed := 3/4, dvDiscrepancy := none }

/-- C4 witness: spec scenario 4 — a source with neither score yields
`scoreUsed = 0.75` and method DIAAS. -/
theorem c4_witness :
    calculateDigestibleProtein c4Input = some c4Result ∧
    c4Result.scoreUsed = 3/4 ∧
    c4Result.calculationMethod = CalculationMethod.DIAAS := by
  have hr : calculateDigestibleProtein c4Input = some c4Result := by
    norm_num [calculateDigestibleProtein, c4Input, c4Result, unscoredSource,
      FDA_DAILY_VALUE_PROTEIN]
  exact ⟨hr, (c4_fallback_chain c4Input unscoredSource c4Result rfl hr).2.2
      rfl rfl⟩

/-! ## C8 — export/import round trip -/

/-- Reviving a record's timestamp with `new Date(calc.timestamp)` is the
identity on the record. -/
theorem revive_timestamp_id (c : ProteinCalculation) :
    ({ c with timestamp := c.timestamp } : ProteinCalculation) = c := rfl

/-- C8: exporting the history and re-importing the blob with
`replaceExisting = true` succeeds and reproduces the identical history —
same order, same contents, timestamps included. -/
theorem c8_round_trip (history : List ProteinCalculation) :
    importCalculationHistory (exportCalculationHistory history) true history =
      (true, history) := by
  simp [importCalculationHistory, exportCalculationHistory, revive_timestamp_id]

/-! ## C9 — import failure atomicity -/

/-- C9: when the blob fails to parse as JSON, or parses to a non-array
value, `importCalculationHistory` returns `false`, never throws to the
caller, and leaves the persisted history exactly unchanged. -/
theorem c9_parse_failure_noop (history : List ProteinCalculation)
    (replaceExisting : Bool) :
    importCalculationHistory ImportData.parseError replaceExisting history =
        (false, history) ∧
    importCalculationHistory ImportData.nonArray replaceExisting history =
        (false, history) :=
  ⟨rfl, rfl⟩

/-! ## C6 — allocation suggestions sum to 100 -/

/-- Every entry of the combinations table pairs as many percentages as name
patterns (all are two-source entries) and its fixed percentages sum to
exactly 100. -/
theorem commonCombinations_wf :
    ∀ c ∈ commonCombinations,
      c.percentages.length = c.sources.length ∧ c.percentages.sum = 100 := by
  intro c hc
  simp only [commonCombinations] at hc
  fin_cases hc <;> norm_num

/-- A left max-fold stays among the seed and the folded elements. -/
theorem foldl_max_mem (xs : List ℚ) : ∀ x : ℚ, xs.foldl max x ∈ x :: xs := by
  induction xs with
  | nil => intro x; simp
  | cons y ys ih =>
      intro x
      have h := ih (max x y)
      show ys.foldl max (max x y) ∈ x :: y :: ys
      rcases List.mem_cons.1 h with h1 | h1
      · rcases max_choice x y with hm | hm
        · rw [h1, hm]; exact List.mem_cons_self _ _
        · rw [h1, hm]; exact List.mem_cons_of_mem _ (List.mem_cons_self _ _)
      · exact List.mem_cons_of_mem _ (List.mem_cons_of_mem _ h1)

/-- `Math.max(...l)` of a nonempty list is one of its elements. -/
theorem listMax_mem {l : List ℚ} (h : l ≠ []) : listMax l ∈ l := by
  cases l with
  | nil => exact absurd rfl h
  | cons x xs => exact foldl_max_mem xs x

/-- Bumping the entry at a valid index by `δ` adds `δ` to the sum. -/
theorem sum_set_getD (l : List ℚ) (i : ℕ) (δ : ℚ) (h : i < l.length) :
    (l.set i (l.getD i 0 + δ)).sum = l.sum + δ := by
  induction l generalizing i with
  | nil => simp at h
  | cons a as ih =>
      cases i with
      | zero => simp [List.set]; ring
      | succ n =>
          have hn : n < as.length := by simpa using h
          simp only [List.set, List.getD_cons_succ, List.sum_cons, ih n hn]
          ring

/-- The quality-weighted fallback returns one percentage per source. -/
theorem getQualityBasedPercentages_length (sources : List ProteinSource) :
    (getQualityBasedPercentages sources).length = sources.length := by
  simp only [getQualityBasedPercentages]
  split
  · simp
  · simp

/-- The residual adjustment — add `100 - sum` to the largest entry — pins a
nonempty list's sum to exactly 100. -/
theorem adjusted_sum (l : List ℚ) (hl : l ≠ []) :
    (l.set (l.indexOf (listMax l))
      (l.getD (l.indexOf (listMax l)) 0 + (100 - l.sum))).sum = 100 := by
  have hidx := List.indexOf_lt_length.2 (listMax_mem hl)
  rw [sum_set_getD _ _ _ hidx]
  ring

/-- The quality-weighted fallback's sum differs from 100 by at most 0.1: the
residual adjustment pins the sum to exactly 100 only when the rounding drift
exceeds 0.1, and otherwise the branch condition itself bounds the drift. -/
theorem getQualityBasedPercentages_sum (sources : List ProteinSource)
    (h : sources ≠ []) :
    |(getQualityBasedPercentages sources).sum - 100| ≤ 1/10 := by
  simp only [getQualityBasedPercentages]
  split
  · rw [adjusted_sum]
    · norm_num
    · simp only [ne_eq, List.map_eq_nil_iff]
      exact h
  · next hle => exact not_lt.1 hle

/-- C6 counterexample: two plant sources with DIAAS 1.335 and 0.665 (no
common-combination match, no plant/animal pair) weight to 66.75 % and
33.25 %, which round half-up to 66.8 and 33.3; the rounded values sum to
100.1, the drift is not strictly greater than 0.1, so no residual
adjustment fires and the returned allocation sums to 100.1 ≠ 100. -/
theorem c6_counterexample :
    getDefaultPercentages [spirulina, hempSeeds] = [334/5, 333/10] ∧
    (getDefaultPercentages [spirulina, hempSeeds]).sum ≠ 100 := by
  have hfind :
      commonCombinations.find? (matchesCombination [spirulina, hempSeeds]) =
        none := by decide
  have heval : getDefaultPercentages [spirulina, hempSeeds] = [334/5, 333/10] := by
    unfold getDefaultPercentages
    rw [hfind]
    norm_num [spirulina, hempSeeds, getQualityBasedPercentages, jsRound, listMax,
      abs_of_nonneg]
    rintro (h | h) <;> exact ProteinCategory.noConfusion h
  refine ⟨heval, ?_⟩
  rw [heval]
  norm_num

/-- C6 (amended): the suggestion has the input's length, returns `[]` on no
sources and `[100]` on one source, and its values sum to 100 up to at most
0.1 of rounding drift: exactly 100 on the table, pair-heuristic and
adjusted-fallback paths, but off by exactly 0.1 when the rounded
quality-weighted values sum to 99.9 or 100.1. -/
theorem c6_allocation_sum :
    getDefaultPercentages [] = [] ∧
    (∀ s : ProteinSource, getDefaultPercentages [s] = [100]) ∧
    ∀ sources : List ProteinSource, sources ≠ [] →
      (getDefaultPercentages sources).length = sources.length ∧
      |(getDefaultPercentages sources).sum - 100| ≤ 1/10 := by
  refine ⟨rfl, fun s => rfl, fun sources hne => ?_⟩
  by_cases h0 : sources.length = 0
  · exact absurd (List.length_eq_zero.1 h0) hne
  by_cases h1 : sources.length = 1
  · rw [getDefaultPercentages, if_neg h0, if_pos h1]
    constructor
    · simp [h1]
    · norm_num
  rw [getDefaultPercentages, if_neg h0, if_neg h1]
  cases hfind : commonCombinations.find? (matchesCombination sources) with
  | some c =>
      have hmem := List.mem_of_find?_eq_some hfind
      have hpred := List.find?_some hfind
      have hwf := commonCombinations_wf c hmem
      have hlen : c.sources.length = sources.length := by
        simp only [matchesCombination, Bool.and_eq_true, beq_iff_eq] at hpred
        exact hpred.1
      exact ⟨hwf.1.trans hlen, by rw [hwf.2]; norm_num⟩
  | none =>
      dsimp only
      split
      · next hcond =>
          have hl2 : sources.length = 2 := by
            simp only [Bool.and_eq_true, beq_iff_eq] at hcond
            exact hcond.2
          split
          · exact ⟨by simp [hl2], by norm_num⟩
          · exact ⟨by simp [hl2], by norm_num⟩
      · exact ⟨getQualityBasedPercentages_length sources,
          getQualityBasedPercentages_sum sources hne⟩

/-- C6 witness: the amended theorem at a concrete singleton input. -/
theorem c6_witness :
    (getDefaultPercentages [spinach]).length = 1 ∧
    |(getDefaultPercentages [spinach]).sum - 100| ≤ 1/10 := by
  have h := c6_allocation_sum.2.2 [spinach] (by simp)
  simpa using h

/-! ## C7 — the two-source plant/animal 70-30 heuristic -/

/-- C7 counterexample: a plant source paired with a supplement source (no
common-combination match) does not receive the claimed 70/30 split with 70
on the supplement side — the pair detection checks only MEAT and DAIRY, so
the input falls through to the quality-weighted fallback, here 50/50. -/
theorem c7_counterexample :
    getDefaultPercentages [spinach, collagen] = [50, 50] ∧
    getDefaultPercentages [spinach, collagen] ≠ [30, 70] := by
  have hfind :
      commonCombinations.find? (matchesCombination [spinach, collagen]) =
        none := by decide
  have heval : getDefaultPercentages [spinach, collagen] = [50, 50] := by
    unfold getDefaultPercentages
    rw [hfind]
    norm_num [spinach, collagen, getQualityBasedPercentages, jsRound, listMax,
      abs_of_nonneg]
    intro h
    exact absurd h (by decide)
  refine ⟨heval, ?_⟩
  rw [heval]
  simp only [ne_eq, List.cons.injEq, and_false, false_and, not_false_eq_true]
  norm_num

/-- C7 (amended): for a two-source input matching no common combination,
when one source's category is plant and the other's is meat or dairy — not
supplement, which the pair detection ignores — the suggestion is the fixed
70/30 split with 70 at the meat/dairy position. -/
theorem c7_plant_animal_split (s₀ s₁ : ProteinSource)
    (hfind : commonCombinations.find? (matchesCombination [s₀, s₁]) = none) :
    (s₀.category = ProteinCategory.PLANT →
      (s₁.category = ProteinCategory.MEAT ∨
       s₁.category = ProteinCategory.DAIRY) →
      getDefaultPercentages [s₀, s₁] = [30, 70]) ∧
    ((s₀.category = ProteinCategory.MEAT ∨
      s₀.category = ProteinCategory.DAIRY) →
      s₁.category = ProteinCategory.PLANT →
      getDefaultPercentages [s₀, s₁] = [70, 30]) := by
  constructor
  · intro h0 h1
    unfold getDefaultPercentages
    rw [hfind]
    rcases h1 with h1 | h1 <;>
      simp [List.any_cons, List.findIdx_cons, h0, h1] <;> decide
  · intro h0 h1
    unfold getDefaultPercentages
    rw [hfind]
    rcases h0 with h0 | h0 <;>
      simp [List.any_cons, List.findIdx_cons, h0, h1]

/-- C7 witness: the amended theorem at a concrete meat-plus-plant pair. -/
theorem c7_witness : getDefaultPercentages [salmon, spinach] = [70, 30] :=
  (c7_plant_animal_split salmon spinach (by decide)).2 (Or.inl rfl) rfl

/-! ## C5 — history bound and recency invariants -/

/-- `saveCalculation` is prepend-then-truncate. -/
theorem saveCalculation_eq_take (c : ProteinCalculation)
    (history : List ProteinCalculation) :
    saveCalculation c history = (c :: history).take maxHistoryItems := by
  unfold saveCalculation
  show (if maxHistoryItems < (c :: history).length then
      (c :: history).take maxHistoryItems else c :: history) = _
  by_cases h : maxHistoryItems < (c :: history).length
  · rw [if_pos h]
  · rw [if_neg h, List.take_of_length_le (not_lt.1 h)]

/-- Truncating again after appending to an already-truncated list is the
same as truncating the plain append. -/
theorem take_append_take (n : ℕ) (a b : List ProteinCalculation) :
    (a ++ b.take n).take n = (a ++ b).take n := by
  rw [List.take_append_eq_append_take, List.take_take,
    List.take_append_eq_append_take, min_eq_left (Nat.sub_le n a.length)]

/-- The oversized import blob of 101 records. -/
def oversizedBlob : List ProteinCalculation := (List.range 101).map mkCalc

/-- C5 counterexample: replace-mode import persists the imported list
verbatim, so importing a 101-record blob leaves the stored history above
the 100-entry bound the claim asserts for every operation. -/
theorem c5_counterexample :
    maxHistoryItems <
      ((importCalculationHistory (ImportData.arr oversizedBlob) true []).2).length := by
  simp [importCalculationHistory, oversizedBlob, maxHistoryItems]

/-- C5 (amended): `save`, `delete`, `clear` and merge-mode import preserve
the bound of 100 entries, and after any number of `save` calls (from a
store within bounds) the retained entries are exactly the 100 most recently
saved, newest first; replace-mode import, by contrast, installs the
imported list verbatim with no cap (see the counterexample). -/
theorem c5_history_invariants :
    (∀ (cs history : List ProteinCalculation),
      history.length ≤ maxHistoryItems →
      saveAll cs history = (cs.reverse ++ history).take maxHistoryItems) ∧
    (∀ (c : ProteinCalculation) (history : List ProteinCalculation),
      (saveCalculation c history).length ≤ maxHistoryItems) ∧
    (∀ (id : String) (history : List ProteinCalculation),
      history.length ≤ maxHistoryItems →
      (deleteCalculation id history).length ≤ maxHistoryItems) ∧
    clearCalculationHistory = ([] : List ProteinCalculation) ∧
    (∀ (items history : List ProteinCalculation),
      ((importCalculationHistory (ImportData.arr items) false history).2).length ≤
        maxHistoryItems) := by
  have hsave : ∀ (c : ProteinCalculation) (history : List ProteinCalculation),
      (saveCalculation c history).length ≤ maxHistoryItems := by
    intro c history
    rw [saveCalculation_eq_take]
    exact List.length_take_le _ _
  refine ⟨?_, hsave, ?_, rfl, ?_⟩
  · intro cs
    induction cs with
    | nil =>
        intro history hlen
        simpa [saveAll] using (List.take_of_length_le hlen).symm
    | cons c cs ih =>
        intro history hlen
        have h1 : saveAll (c :: cs) history = saveAll cs (saveCalculation c history) := rfl
        rw [h1, ih _ (hsave c history), saveCalculation_eq_take,
          take_append_take]
        simp [List.reverse_cons, List.append_assoc]
  · intro id history hlen
    exact le_trans (List.length_filter_le _ _) hlen
  · intro items history
    simp only [importCalculationHistory]
    split
    · next hfalse => exact absurd hfalse (by simp)
    · split
      · exact List.length_take_le _ _
      · next hle => exact not_lt.1 hle

/-- C5 witness: the amended theorem's save characterisation at one concrete
save onto the empty store. -/
theorem c5_witness : saveAll [mkCalc 0] [] = [mkCalc 0] := by
  have h := c5_history_invariants.1 [mkCalc 0] [] (by simp [maxHistoryItems])
  rw [List.take_of_length_le (by simp [maxHistoryItems])] at h
  simpa using h

/-! ## C10 — statistics totality depends on the optional proteinSource -/

/-- C10: `getCalculationStatistics` groups by `calc.proteinSource.name`, so
it throws on any stored history containing a record without a
`proteinSource` (such records pass import validation unhindered); on
histories where every record carries one it returns statistics with
averages 0 on the empty history and at most 5 most-used entries. -/
theorem c10_statistics_partial :
    (∀ history : List ProteinCalculation,
      (∃ c ∈ history, c.proteinSource = none) →
        getCalculationStatistics history = none) ∧
    (∀ history : List ProteinCalculation,
      (∀ c ∈ history, c.proteinSource.isSome = true) →
        ∃ stats, getCalculationStatistics history = some stats ∧
          stats.mostUsedSources.length ≤ 5) ∧
    getCalculationStatistics [] =
      some { totalCalculations := 0, averageStatedProtein := 0,
             averageQualityAdjustedProtein := 0, mostUsedSources := [] } ∧
    (∀ (items history : List ProteinCalculation),
      (importCalculationHistory (ImportData.arr items) true history).1 = true) := by
  refine ⟨?_, ?_, ?_, fun items history => rfl⟩
  · rintro history ⟨c, hc, hnone⟩
    unfold getCalculationStatistics
    rw [if_neg]
    simp only [List.all_eq_true, not_forall]
    exact ⟨c, hc, by simp [hnone]⟩
  · intro history hall
    unfold getCalculationStatistics
    rw [if_pos (List.all_eq_true.2 hall)]
    exact ⟨_, rfl, List.length_take_le _ _⟩
  · simp [getCalculationStatistics]

/-- C10 witness: a single imported record without a `proteinSource` makes
the statistics computation throw. -/
theorem c10_witness : getCalculationStatistics [sourcelessCalc] = none :=
  c10_statistics_partial.1 [sourcelessCalc]
    ⟨sourcelessCalc, List.mem_cons_self _ _, rfl⟩

end ProteinChecker
